import Mathlib

/-!
Shallow embedding of the Formageddon form-validation engine.

The JavaScript source is an IIFE over the live DOM.  We embed its pure
logic directly and model the DOM surface it touches explicitly:

* an `Input` carries the fields the code reads (tagName, type, value,
  selected files, the host validity vector) plus its attribute map and
  the aria-invalid attribute the synchronizer writes;
* a `Doc` carries the two lookup tables the code consults
  (document.querySelector for confirm origins, document.getElementById
  for message targets) together with the mutable state of the message
  target elements;
* each handler becomes an explicit state transformer
  `Doc -> Input -> Input × Doc`.

JavaScript string truthiness (null or empty string is falsy) is made
explicit at each use site, mirroring the source line by line.
-/

namespace Formageddon

/-!
Executable models of the JavaScript string methods the source uses
(trim, toLowerCase, split on comma, startsWith, endsWith, slice(0,-1)).
They are written by structural recursion on the character list so that
the kernel can evaluate them on concrete inputs; the Lean standard
library versions use position loops the kernel cannot unfold.  Case
folding is ASCII, which covers every comparison the source performs on
the attribute vocabulary it defines.
-/

/-- Drop whitespace characters from both ends of a character list. -/
def trimChars (l : List Char) : List Char :=
  ((l.dropWhile Char.isWhitespace).reverse.dropWhile Char.isWhitespace).reverse

/-- JavaScript String.prototype.trim. -/
def jsTrim (s : String) : String :=
  ⟨trimChars s.data⟩

/-- JavaScript String.prototype.toLowerCase (ASCII folding). -/
def jsToLower (s : String) : String :=
  ⟨s.data.map Char.toLower⟩

/-- Split a character list at commas, keeping empty segments. -/
def splitCommaChars : List Char → List Char → List String
  | [], acc => [⟨acc.reverse⟩]
  | c :: rest, acc =>
    if c == ',' then ⟨acc.reverse⟩ :: splitCommaChars rest []
    else splitCommaChars rest (c :: acc)

/-- JavaScript String.prototype.split with separator comma: the empty
string yields one empty segment, exactly as in JavaScript. -/
def jsSplitComma (s : String) : List String :=
  splitCommaChars s.data []

/-- Whether the first list is an initial segment of the second. -/
def leadsWith : List Char → List Char → Bool
  | [], _ => true
  | _ :: _, [] => false
  | p :: ps, c :: cs => p == c && leadsWith ps cs

/-- JavaScript String.prototype.startsWith. -/
def jsStartsWith (s head : String) : Bool :=
  leadsWith head.data s.data

/-- JavaScript String.prototype.endsWith. -/
def jsEndsWith (s tail : String) : Bool :=
  leadsWith tail.data.reverse s.data.reverse

/-- JavaScript String.prototype.slice(0,-1): the string minus its last
character. -/
def jsDropLast (s : String) : String :=
  ⟨s.data.dropLast⟩

/-- The nine-flag native validity vector supplied by the host platform
for a control (ValidityState in the DOM). -/
structure Validity where
  valueMissing : Bool
  typeMismatch : Bool
  patternMismatch : Bool
  tooLong : Bool
  tooShort : Bool
  rangeOverflow : Bool
  rangeUnderflow : Bool
  stepMismatch : Bool
  badInput : Bool
  deriving Repr, DecidableEq

/-- The overall validity boolean the host platform exposes as
validity.valid: true exactly when none of the nine flags is set.  The
code only reads this value; the platform computes it this way. -/
def Validity.valid (v : Validity) : Bool :=
  !(v.valueMissing || v.typeMismatch || v.patternMismatch || v.tooLong ||
    v.tooShort || v.rangeOverflow || v.rangeUnderflow || v.stepMismatch ||
    v.badInput)

/-- A selected file: the two fields the code reads (file.name, file.type). -/
structure JsFile where
  name : String
  type : String
  deriving Repr, DecidableEq

/-- The observable state of a message target element: the two state
classes the synchronizer toggles and its text content. -/
structure TargetState where
  hasInvalidClass : Bool
  hasValidClass : Bool
  text : String
  deriving Repr, DecidableEq

/-- A form control as the code sees it.  attrs is the element attribute
map (a present attribute appears with its value, possibly empty);
ariaInvalid models the aria-invalid attribute, which the code only ever
writes via setAttribute / removeAttribute. -/
structure Input where
  tagName : String
  type : String
  value : String
  files : List JsFile
  validity : Validity
  attrs : List (String × String)
  ariaInvalid : Option String
  deriving Repr, DecidableEq

/-- element.getAttribute: the value of a present attribute, none when
absent (JavaScript returns null). -/
def Input.getAttribute (i : Input) (name : String) : Option String :=
  (i.attrs.find? (fun p => p.1 == name)).map (fun p => p.2)

/-- element.hasAttribute. -/
def Input.hasAttribute (i : Input) (name : String) : Bool :=
  (i.attrs.find? (fun p => p.1 == name)).isSome

/-- The document surface the code consults: querySelector results for
confirm-origin selectors and getElementById results for message-target
ids, the latter carrying the mutable target element state. -/
structure Doc where
  origins : List (String × Input)
  targets : List (String × TargetState)
  deriving Repr, DecidableEq

/-- document.querySelector restricted to confirm-origin selectors. -/
def Doc.querySel (doc : Doc) (sel : String) : Option Input :=
  (doc.origins.find? (fun p => p.1 == sel)).map (fun p => p.2)

/-- document.getElementById for message targets. -/
def Doc.getById (doc : Doc) (id : String) : Option TargetState :=
  (doc.targets.find? (fun p => p.1 == id)).map (fun p => p.2)

/-- Overwrite the state of the message target registered under id. -/
def Doc.setTargetById (doc : Doc) (id : String) (t : TargetState) : Doc :=
  ⟨doc.origins, doc.targets.map (fun p => if p.1 == id then (p.1, t) else p)⟩

/-- JavaScript `a || d` on a getAttribute result: null and the empty
string are both falsy, so either falls back to the default. -/
def jsOr (o : Option String) (d : String) : String :=
  match o with
  | some s => if s == "" then d else s
  | none => d

/-- One row of the `errors` table of the source: the validity flag it
keys on, the override attribute, and the built-in default message
(named `default` in the source). -/
structure ErrEntry where
  flag : Validity → Bool
  attr : String
  dflt : String

/-- The `errors` table of the source, in its insertion order (the order
Object.entries iterates). -/
def errorTable : List ErrEntry :=
  [ ⟨Validity.valueMissing, "data-required-err", "This field is required."⟩,
    ⟨Validity.typeMismatch, "data-type-err", "The value is not the correct type."⟩,
    ⟨Validity.patternMismatch, "data-pattern-err", "The value does not match the required pattern."⟩,
    ⟨Validity.tooLong, "data-maxlength-err", "The value is too long."⟩,
    ⟨Validity.tooShort, "data-minlength-err", "The value is too short."⟩,
    ⟨Validity.rangeOverflow, "data-max-err", "The value is too large."⟩,
    ⟨Validity.rangeUnderflow, "data-min-err", "The value is too small."⟩,
    ⟨Validity.stepMismatch, "data-step-err", "The value does not match the step interval."⟩,
    ⟨Validity.badInput, "data-type-err", "The input value is invalid."⟩ ]

/-- The accept-token test from the isValidAccept callback: a token
starting with a dot matches by file-name suffix, a token ending in
slash-star matches by MIME-type front segment (token minus the trailing
star), any other token by exact MIME-type equality.  Arguments are the
already lower-cased file name and MIME type. -/
def acceptMatches (fileName fileType : String) (t : String) : Bool :=
  if jsStartsWith t "." then jsEndsWith fileName t
  else if jsEndsWith t "/*" then jsStartsWith fileType (jsDropLast t)
  else fileType == t

/-- The token list isValidAccept builds: split the accept value on
commas, trim and lower-case each token. -/
def acceptTokens (accept : String) : List String :=
  (jsSplitComma accept).map (fun s => jsToLower (jsTrim s))

/-- isValidAccept from the source: true when the accept attribute is
absent or empty, when no files are selected, or when every selected
file matches some token. -/
def isValidAccept (input : Input) : Bool :=
  match input.getAttribute "accept" with
  | none => true
  | some accept =>
    if accept == "" then true
    else if input.files.length == 0 then true
    else input.files.all (fun file =>
      (acceptTokens accept).any (fun t =>
        acceptMatches (jsToLower file.name) (jsToLower file.type) t))

/-- isValidConfirm from the source: true when the data-confirm attribute
is absent or empty; false (after logging) when the selector resolves to
no element; otherwise the raw, untrimmed equality of the two values. -/
def isValidConfirm (doc : Doc) (input : Input) : Bool :=
  match input.getAttribute "data-confirm" with
  | none => true
  | some origin =>
    if origin == "" then true
    else
      match doc.querySel origin with
      | none => false
      | some originEl => input.value == originEl.value

/-- The generic loop of getError over the errors table: the message of
the first entry whose flag is set, empty when none is. -/
def genericError (input : Input) : String :=
  match errorTable.find? (fun e => e.flag input.validity) with
  | some e => jsOr (input.getAttribute e.attr) e.dflt
  | none => ""

/-- getError from the source: the file-accept check first (only when the
control is a file input with an accept attribute and a non-blank value,
and only when the files fail the filter), then the data-confirm branch
(which returns unconditionally once the attribute is present), then the
generic loop over the errors table. -/
def getError (doc : Doc) (input : Input) : String :=
  if input.type == "file" && input.hasAttribute "accept" &&
      jsTrim input.value != "" && !(isValidAccept input) then
    jsOr (input.getAttribute "data-accept-err") "Invalid file type."
  else if input.hasAttribute "data-confirm" then
    if jsTrim input.value != "" && !(isValidConfirm doc input) then
      jsOr (input.getAttribute "data-confirm-err") "Values do not match."
    else ""
  else genericError input

/-- The message-target update pattern shared verbatim by the three
handlers of the source: when the aria-describedby attribute is present
and non-empty, look up the target element; a missing target is logged
and skipped (the document is untouched), a found target is overwritten
with the supplied state.  The control itself is returned unchanged. -/
def syncMessageTarget (doc : Doc) (inp : Input) (t : TargetState) : Input × Doc :=
  match inp.getAttribute "aria-describedby" with
  | none => (inp, doc)
  | some target =>
    if target == "" then (inp, doc)
    else
      match doc.getById target with
      | none => (inp, doc)
      | some _ => (inp, doc.setTargetById target t)

/-- handleInvalidInput from the source: set aria-invalid to "true"; a
found target gets the invalid class, loses the valid class, and shows
getError. -/
def handleInvalidInput (doc : Doc) (input : Input) : Input × Doc :=
  syncMessageTarget doc { input with ariaInvalid := some "true" }
    ⟨true, false, getError doc { input with ariaInvalid := some "true" }⟩

/-- handleValidInput from the source: set aria-invalid to "false"; a
found target gets the valid class, loses the invalid class, and shows
the data-success attribute value or the empty string. -/
def handleValidInput (doc : Doc) (input : Input) : Input × Doc :=
  syncMessageTarget doc { input with ariaInvalid := some "false" }
    ⟨false, true, jsOr (input.getAttribute "data-success") ""⟩

/-- clearValidation from the source: remove the aria-invalid attribute;
a found target loses both state classes and its text is cleared. -/
def clearValidation (doc : Doc) (input : Input) : Input × Doc :=
  syncMessageTarget doc { input with ariaInvalid := none } ⟨false, false, ""⟩

/-- validateInput from the source: invalid when the confirm check fails
or the host validity vector is not valid; otherwise valid when the
trimmed value is non-blank, else cleared to neutral. -/
def validateInput (doc : Doc) (input : Input) : Input × Doc :=
  if !(isValidConfirm doc input) || !(Validity.valid input.validity) then
    handleInvalidInput doc input
  else if jsTrim input.value != "" then
    handleValidInput doc input
  else
    clearValidation doc input

/-- A form as the gating code sees it: the host checkValidity result and
the descendant controls querySelectorAll ranges over. -/
structure Form where
  checkValidity : Bool
  controls : List Input
  deriving Repr, DecidableEq

/-- A submit control: the fields applySubmitValidator reads and the
disabled flag handleFormSubmitControl writes. -/
structure Submit where
  tagName : String
  type : String
  disabled : Bool
  deriving Repr, DecidableEq

/-- handleFormSubmitControl from the source: enable the submit control
exactly when the form passes checkValidity and no descendant carries
aria-invalid equal to "true"; otherwise disable it. -/
def handleFormSubmitControl (form : Form) (submit : Submit) : Submit :=
  if form.checkValidity &&
      ((form.controls.filter (fun c => c.ariaInvalid == some "true")).length == 0) then
    { submit with disabled := false }
  else
    { submit with disabled := true }

/-- applySubmitValidator from the source: a candidate that is not an
INPUT or BUTTON of type submit is logged and left untouched (the Bool
records whether the control became managed); otherwise gating runs once
immediately and the control is managed from then on. -/
def applySubmitValidator (form : Form) (submit : Submit) : Submit × Bool :=
  if !(["INPUT", "BUTTON"].contains submit.tagName) || submit.type != "submit" then
    (submit, false)
  else
    (handleFormSubmitControl form submit, true)

/-!
Comparison definition for the generic message table, and concrete
fixtures used by the theorems below.
-/

/-- Comparison definition following the wording of the spec for the
generic check (with the override condition as the code implements it):
the message of the first set flag in the fixed order missing,
type-mismatch, pattern-mismatch, too-long, too-short, range-overflow,
range-underflow, step-mismatch, bad-input, taking the custom override
attribute when present with a non-empty value, else the built-in
default; empty when no flag is set. -/
def specGenericMessage (c : Input) : String :=
  if c.validity.valueMissing then jsOr (c.getAttribute "data-required-err") "This field is required."
  else if c.validity.typeMismatch then jsOr (c.getAttribute "data-type-err") "The value is not the correct type."
  else if c.validity.patternMismatch then jsOr (c.getAttribute "data-pattern-err") "The value does not match the required pattern."
  else if c.validity.tooLong then jsOr (c.getAttribute "data-maxlength-err") "The value is too long."
  else if c.validity.tooShort then jsOr (c.getAttribute "data-minlength-err") "The value is too short."
  else if c.validity.rangeOverflow then jsOr (c.getAttribute "data-max-err") "The value is too large."
  else if c.validity.rangeUnderflow then jsOr (c.getAttribute "data-min-err") "The value is too small."
  else if c.validity.stepMismatch then jsOr (c.getAttribute "data-step-err") "The value does not match the step interval."
  else if c.validity.badInput then jsOr (c.getAttribute "data-type-err") "The input value is invalid."
  else ""

/-- All nine validity flags clear (validity.valid holds). -/
def vAllOk : Validity := ⟨false, false, false, false, false, false, false, false, false⟩

/-- Only valueMissing set (a required control with empty value). -/
def vMissing : Validity := { vAllOk with valueMissing := true }

/-- An empty document: no confirm origins, no message targets. -/
def doc0 : Doc := ⟨[], []⟩

/-- A file input holding a file that fails its accept filter while the
host validity vector is all clear. -/
def txtExample : Input :=
  { tagName := "INPUT", type := "file", value := "C:\\fakepath\\a.txt",
    files := [⟨"a.txt", "text/plain"⟩], validity := vAllOk,
    attrs := [("accept", ".png,image/*")], ariaInvalid := none }

/-- A file input holding a file that passes its accept filter by both
the extension token (case-insensitively) and the MIME wildcard token. -/
def pngExample : Input :=
  { tagName := "INPUT", type := "file", value := "C:\\fakepath\\a.PNG",
    files := [⟨"a.PNG", "image/x-png"⟩], validity := vAllOk,
    attrs := [("accept", ".png,image/*")], ariaInvalid := none }

/-- The origin control of a confirm pair, holding value "secret". -/
def originSecret : Input :=
  { tagName := "INPUT", type := "password", value := "secret",
    files := [], validity := vAllOk, attrs := [("id", "pw")], ariaInvalid := none }

/-- A document in which selector "#pw" resolves to the secret origin. -/
def docSecret : Doc := ⟨[("#pw", originSecret)], []⟩

/-- The same document after the origin value changed to "other". -/
def docOther : Doc := ⟨[("#pw", { originSecret with value := "other" })], []⟩

/-- The same document with the origin value cleared to empty. -/
def docEmptyOrigin : Doc := ⟨[("#pw", { originSecret with value := "" })], []⟩

/-- A dependent confirm control referencing "#pw", with a given value. -/
def depControl (v : String) : Input :=
  { tagName := "INPUT", type := "password", value := v,
    files := [], validity := vAllOk, attrs := [("data-confirm", "#pw")], ariaInvalid := none }

/-- An empty dependent confirm control that is also required (only the
valueMissing flag differs from depControl of the empty string). -/
def depEmptyRequired : Input := { depControl "" with validity := vMissing }

/-- A dependent confirm control displayed as valid by a previous
resolution (aria-invalid already "false"). -/
def depPrevValid : Input := { depControl "abc" with ariaInvalid := some "false" }

/-- A required text control with empty value and no override message. -/
def requiredEmptyControl : Input :=
  { tagName := "INPUT", type := "text", value := "", files := [],
    validity := vMissing, attrs := [("required", "")], ariaInvalid := none }

/-- The same control with a present but empty override attribute. -/
def emptyOverrideControl : Input :=
  { requiredEmptyControl with attrs := [("required", ""), ("data-required-err", "")] }

/-- A control whose trimmed value is empty (whitespace only) and which
was displayed as valid by a previous resolution, with a message target. -/
def neutralControl : Input :=
  { tagName := "INPUT", type := "text", value := "  ", files := [], validity := vAllOk,
    attrs := [("minlength", "2"), ("aria-describedby", "msg")], ariaInvalid := some "false" }

/-- A document carrying the message target "msg" in a previous state. -/
def docWithTarget : Doc := ⟨[], [("msg", ⟨false, true, "looks good"⟩)]⟩

/-- A control whose aria-describedby reference resolves to no element. -/
def ghostControl : Input :=
  { requiredEmptyControl with attrs := [("required", ""), ("aria-describedby", "ghost")] }

/-- A form used to exercise gating. -/
def gatedForm : Form := ⟨true, [requiredEmptyControl]⟩

/-- A genuine submit-triggering control. -/
def submitButton : Submit := ⟨"BUTTON", "submit", false⟩

/-!
Shared helper lemmas about the synchronizer primitives and the
structure of the resolver.
-/

/-- The target-sync step never changes the control it is given. -/
theorem syncMessageTarget_fst (doc : Doc) (i : Input) (t : TargetState) :
    (syncMessageTarget doc i t).1 = i := by
  unfold syncMessageTarget
  split
  · rfl
  · split
    · rfl
    · split <;> rfl

/-- handleInvalidInput always sets aria-invalid to "true" on the control. -/
theorem handleInvalidInput_fst (doc : Doc) (i : Input) :
    (handleInvalidInput doc i).1 = { i with ariaInvalid := some "true" } :=
  syncMessageTarget_fst ..

/-- handleValidInput always sets aria-invalid to "false" on the control. -/
theorem handleValidInput_fst (doc : Doc) (i : Input) :
    (handleValidInput doc i).1 = { i with ariaInvalid := some "false" } :=
  syncMessageTarget_fst ..

/-- clearValidation always removes the aria-invalid attribute. -/
theorem clearValidation_fst (doc : Doc) (i : Input) :
    (clearValidation doc i).1 = { i with ariaInvalid := none } :=
  syncMessageTarget_fst ..

/-- Looking up a registered message target after overwriting it yields
the new state. -/
theorem getById_setTargetById (doc : Doc) (id : String) (u t : TargetState)
    (h : doc.getById id = some t) :
    (doc.setTargetById id u).getById id = some u := by
  rcases doc with ⟨origins, targets⟩
  simp only [Doc.getById, Doc.setTargetById] at h ⊢
  induction targets with
  | nil => simp at h
  | cons p ps ih =>
    by_cases hp : (p.1 == id) = true
    · simp [List.find?, hp]
    · have hp2 : (p.1 == id) = false := by simpa using hp
      simp only [List.map_cons, List.find?, hp2, Bool.false_eq_true, if_false] at h ⊢
      exact ih h

/-- With a present, non-empty aria-describedby reference and a target
that exists, the sync step overwrites exactly that target. -/
theorem syncMessageTarget_found (doc : Doc) (i : Input) (t : TargetState) (id : String)
    (h1 : i.getAttribute "aria-describedby" = some id) (h2 : id ≠ "")
    (h3 : (doc.getById id).isSome = true) :
    syncMessageTarget doc i t = (i, doc.setTargetById id t) := by
  have h2b : (id == "") = false := by simpa using h2
  rcases hfind : doc.getById id with _ | u
  · rw [hfind] at h3; simp at h3
  · unfold syncMessageTarget
    rw [h1]
    simp [h2b, hfind]

/-- With a present, non-empty aria-describedby reference whose target
does not exist, the sync step leaves the document untouched. -/
theorem syncMessageTarget_missing (doc : Doc) (i : Input) (t : TargetState) (id : String)
    (h1 : i.getAttribute "aria-describedby" = some id) (h2 : id ≠ "")
    (h3 : doc.getById id = none) :
    syncMessageTarget doc i t = (i, doc) := by
  have h2b : (id == "") = false := by simpa using h2
  unfold syncMessageTarget
  rw [h1]
  simp [h2b, h3]

/-- isValidAccept never reads the validity vector. -/
theorem isValidAccept_validity (c : Input) (v : Validity) :
    isValidAccept { c with validity := v } = isValidAccept c := rfl

/-- isValidConfirm never reads the validity vector. -/
theorem isValidConfirm_validity (doc : Doc) (c : Input) (v : Validity) :
    isValidConfirm doc { c with validity := v } = isValidConfirm doc c := rfl

/-- hasAttribute never reads the validity vector. -/
theorem hasAttribute_validity (c : Input) (v : Validity) (a : String) :
    Input.hasAttribute { c with validity := v } a = c.hasAttribute a := rfl

/-- getAttribute never reads the validity vector. -/
theorem getAttribute_validity (c : Input) (v : Validity) (a : String) :
    Input.getAttribute { c with validity := v } a = c.getAttribute a := rfl

/-- The iteration of the errors table agrees with the fixed if-chain of
the specified priority order, for every validity vector. -/
theorem genericError_eq_spec (c : Input) : genericError c = specGenericMessage c := by
  obtain ⟨tag, ty, val, files, v, attrs, aria⟩ := c
  obtain ⟨m, tm, pm, tl, ts, ro, ru, sm, bi⟩ := v
  cases m <;> cases tm <;> cases pm <;> cases tl <;> cases ts <;>
    cases ro <;> cases ru <;> cases sm <;> cases bi <;> rfl

/-!
Claim theorems.
-/

/-- Claim C1 (code-bug evidence): a file control whose selected file
fails its accept filter, with the host validity vector all clear, is
nevertheless resolved with aria-invalid set to "false" (the Valid
handler): validateInput never consults isValidAccept, even though
getError would report the accept failure message for this control. -/
theorem fileAccept_failure_resolves_valid :
    isValidAccept txtExample = false ∧
    getError doc0 txtExample = "Invalid file type." ∧
    validateInput doc0 txtExample = ({ txtExample with ariaInvalid := some "false" }, doc0) := by
  refine ⟨by decide, by decide, by decide⟩

/-- Claim C2 (counterexample): with origin value "secret", a dependent
confirm control whose value is the empty string is resolved with
aria-invalid set to "true" (Invalid), not Neutral as the claim states:
the state check compares the raw values without the emptiness
exemption that the message path applies. -/
theorem confirm_empty_dependent_not_neutral :
    (validateInput docSecret (depControl "")).1.ariaInvalid = some "true" ∧
    (validateInput docSecret (depControl "")).1.ariaInvalid ≠ none := by decide

/-- Claim C2 (amended): for a confirm pair with origin value "secret",
a dependent value of the empty string resolves Invalid with empty
message; "secret" resolves Valid; "secre" resolves Invalid with the
confirm message; and after the origin changes to "other" while the
dependent still holds "secret", re-resolution yields Invalid. -/
theorem confirm_pair_scenario :
    ((validateInput docSecret (depControl "")).1.ariaInvalid = some "true" ∧
      getError docSecret (depControl "") = "") ∧
    (validateInput docSecret (depControl "secret")).1.ariaInvalid = some "false" ∧
    ((validateInput docSecret (depControl "secre")).1.ariaInvalid = some "true" ∧
      getError docSecret (depControl "secre") = "Values do not match.") ∧
    (validateInput docOther (depControl "secret")).1.ariaInvalid = some "true" := by decide

/-- Claim C3 (counterexample): two confirm controls that are identical
except for the valueMissing flag, both with empty value matching an
empty origin (so the confirm check passes), resolve to different
states: the one with the flag set becomes Invalid, the other Neutral.
The resolved state of a confirm control therefore does depend on the
nine native validity flags, contrary to the claim. -/
theorem confirm_state_reads_validity_flags :
    isValidConfirm docEmptyOrigin depEmptyRequired = true ∧
    (validateInput docEmptyOrigin depEmptyRequired).1.ariaInvalid = some "true" ∧
    (validateInput docEmptyOrigin (depControl "")).1.ariaInvalid = none := by decide

/-- Claim C3 (amended): for a control carrying the data-confirm
attribute, the resolved message never consults the nine-flag table (it
is invariant under any change of the validity vector); the resolved
state, however, still depends on overall native validity: when the
confirm check passes but validity.valid is false, the control is
resolved Invalid. -/
theorem confirm_message_never_generic (doc : Doc) (c : Input) (v1 v2 : Validity)
    (h : c.hasAttribute "data-confirm" = true) :
    getError doc { c with validity := v1 } = getError doc { c with validity := v2 } ∧
    (isValidConfirm doc c = true → Validity.valid c.validity = false →
      (validateInput doc c).1.ariaInvalid = some "true") := by
  constructor
  · unfold getError
    simp only [isValidAccept_validity, isValidConfirm_validity, hasAttribute_validity,
      getAttribute_validity, h, if_true]
  · intro hc hv
    unfold validateInput
    rw [hc, hv]
    simp [handleInvalidInput_fst]

/-- Claim C3 witness: the amended theorem applied to the concrete
required confirm control of the counterexample. -/
theorem confirm_message_never_generic_witness :
    getError docEmptyOrigin { depEmptyRequired with validity := vAllOk } =
      getError docEmptyOrigin { depEmptyRequired with validity := vMissing } ∧
    (validateInput docEmptyOrigin depEmptyRequired).1.ariaInvalid = some "true" :=
  ⟨(confirm_message_never_generic docEmptyOrigin depEmptyRequired vAllOk vMissing (by decide)).1,
   (confirm_message_never_generic docEmptyOrigin depEmptyRequired vAllOk vMissing
      (by decide)).2 (by decide) (by decide)⟩

/-- Claim C4 (counterexample): a control with valueMissing set whose
override attribute data-required-err is present with the empty value
receives the built-in default message, not the (empty) attribute
value: the code treats a present-but-empty override as absent. -/
theorem empty_override_attribute_ignored :
    emptyOverrideControl.hasAttribute "data-required-err" = true ∧
    emptyOverrideControl.getAttribute "data-required-err" = some "" ∧
    getError doc0 emptyOverrideControl = "This field is required." ∧
    getError doc0 emptyOverrideControl ≠ "" := by decide

/-- Claim C4 (amended): for every control without an accept filter and
without a confirm-origin, the resolved message is that of the first set
flag in the fixed order missing, type-mismatch, pattern-mismatch,
too-long, too-short, range-overflow, range-underflow, step-mismatch,
bad-input, taking the custom override attribute when present with a
non-empty value, else the built-in default of the attribute table. -/
theorem getError_generic_priority (doc : Doc) (c : Input)
    (h1 : c.hasAttribute "accept" = false)
    (h2 : c.hasAttribute "data-confirm" = false) :
    getError doc c = specGenericMessage c := by
  simp [getError, h1, h2, genericError_eq_spec]

/-- Claim C4 witness: the amended theorem applied to a concrete
required control with empty value. -/
theorem getError_generic_priority_witness :
    getError doc0 requiredEmptyControl = specGenericMessage requiredEmptyControl :=
  getError_generic_priority doc0 requiredEmptyControl (by decide) (by decide)

/-- Claim C5: the file-accept predicate accepts a selection (for a
present, non-empty filter) exactly when every selected file matches at
least one comma-separated token, compared case-insensitively: a dot
token by file-name suffix, a slash-star token by MIME-type front
segment (the token minus the trailing star), any other token by exact
MIME-type equality; an empty selection always passes; and concretely,
for filter ".png,image/*" the file a.PNG with MIME image/x-png passes
while a.txt with MIME text/plain fails. -/
theorem isValidAccept_spec :
    (∀ (i : Input) (a : String), i.getAttribute "accept" = some a → a ≠ "" →
      (isValidAccept i = true ↔
        ∀ f ∈ i.files, ∃ t ∈ acceptTokens a,
          acceptMatches (jsToLower f.name) (jsToLower f.type) t = true)) ∧
    (∀ i : Input, i.files = [] → isValidAccept i = true) ∧
    isValidAccept pngExample = true ∧
    isValidAccept txtExample = false := by
  refine ⟨?_, ?_, by decide, by decide⟩
  · intro i a ha hne
    have hne2 : (a == "") = false := by simpa using hne
    unfold isValidAccept
    rw [ha]
    simp only [hne2, Bool.false_eq_true, if_false]
    cases hf : i.files with
    | nil => simp
    | cons f fs =>
      simp [List.all_eq_true, List.any_eq_true]
  · intro i hf
    unfold isValidAccept
    cases hg : i.getAttribute "accept" with
    | none => rfl
    | some a => simp [hf]

/-- Claim C5 witness: the matching characterization applied to the
concrete passing example. -/
theorem isValidAccept_spec_witness :
    isValidAccept pngExample = true ↔
      ∀ f ∈ pngExample.files, ∃ t ∈ acceptTokens ".png,image/*",
        acceptMatches (jsToLower f.name) (jsToLower f.type) t = true :=
  isValidAccept_spec.1 pngExample ".png,image/*" (by decide) (by decide)

/-- Claim C6: the gated submit control is enabled exactly when the form
reports overall native validity and no descendant control carries
aria-invalid equal to "true" (otherwise it is disabled); a genuine
INPUT or BUTTON of type submit is managed with gating applied, and any
other candidate is rejected at registration and left untouched. -/
theorem submit_gating_spec :
    (∀ (form : Form) (submit : Submit),
      ((handleFormSubmitControl form submit).disabled = false ↔
        (form.checkValidity = true ∧ ∀ c ∈ form.controls, c.ariaInvalid ≠ some "true"))) ∧
    (∀ (form : Form) (submit : Submit),
      (submit.tagName = "INPUT" ∨ submit.tagName = "BUTTON") → submit.type = "submit" →
      applySubmitValidator form submit = (handleFormSubmitControl form submit, true)) ∧
    (∀ (form : Form) (submit : Submit),
      ¬((submit.tagName = "INPUT" ∨ submit.tagName = "BUTTON") ∧ submit.type = "submit") →
      applySubmitValidator form submit = (submit, false)) := by
  refine ⟨?_, ?_, ?_⟩
  · intro form submit
    have haux : (form.checkValidity &&
        ((form.controls.filter (fun c => c.ariaInvalid == some "true")).length == 0)) = true ↔
        (form.checkValidity = true ∧ ∀ c ∈ form.controls, c.ariaInvalid ≠ some "true") := by
      simp [List.length_eq_zero, List.filter_eq_nil_iff]
    unfold handleFormSubmitControl
    split
    case isTrue h => simpa using haux.mp h
    case isFalse h =>
      constructor
      · intro hd; simp at hd
      · intro hr; exact absurd (haux.mpr hr) h
  · intro form submit htag hty
    have h1 : (["INPUT", "BUTTON"].contains submit.tagName) = true := by
      rcases htag with h | h <;> simp [h]
    have h2 : (submit.type != "submit") = false := by simp [hty]
    unfold applySubmitValidator
    rw [h1, h2]
    simp
  · intro form submit hneg
    rcases Decidable.em (submit.tagName = "INPUT" ∨ submit.tagName = "BUTTON") with ht | ht
    · have hty : submit.type ≠ "submit" := fun h => hneg ⟨ht, h⟩
      have h2 : (submit.type != "submit") = true := by simpa using hty
      unfold applySubmitValidator
      rw [h2]
      simp
    · have h1 : (["INPUT", "BUTTON"].contains submit.tagName) = false := by
        simpa using ht
      unfold applySubmitValidator
      rw [h1]
      simp

/-- Claim C6 witness: registration of a concrete BUTTON of type submit
is accepted and managed. -/
theorem submit_gating_spec_witness :
    applySubmitValidator gatedForm submitButton =
      (handleFormSubmitControl gatedForm submitButton, true) :=
  submit_gating_spec.2.1 gatedForm submitButton (Or.inr rfl) rfl

/-- Claim C7: a control whose host validity is valid, whose confirm
check passes, and whose trimmed value is empty resolves to Neutral:
the aria-invalid attribute is removed entirely, and a present message
target loses both state classes and has its text cleared. -/
theorem valid_empty_resolves_neutral (doc : Doc) (i : Input)
    (h1 : Validity.valid i.validity = true)
    (h2 : isValidConfirm doc i = true)
    (h3 : jsTrim i.value = "") :
    (validateInput doc i).1.ariaInvalid = none ∧
    ∀ id t, i.getAttribute "aria-describedby" = some id → id ≠ "" →
      doc.getById id = some t →
      (validateInput doc i).2.getById id = some ⟨false, false, ""⟩ := by
  have hstep : validateInput doc i = clearValidation doc i := by
    unfold validateInput
    rw [h1, h2]
    simp [h3]
  constructor
  · rw [hstep, clearValidation_fst]
  · intro id t ha hne hget
    rw [hstep]
    unfold clearValidation
    have ha2 : Input.getAttribute { i with ariaInvalid := none } "aria-describedby" = some id := ha
    rw [syncMessageTarget_found doc _ _ id ha2 hne (by rw [hget]; rfl)]
    exact getById_setTargetById ⟨doc.origins, doc.targets⟩ id _ t hget

/-- Claim C7 witness: a previously valid control whose value became
whitespace-only transitions to Neutral, with its message target wiped. -/
theorem valid_empty_resolves_neutral_witness :
    (validateInput docWithTarget neutralControl).1.ariaInvalid = none ∧
    (validateInput docWithTarget neutralControl).2.getById "msg" = some ⟨false, false, ""⟩ :=
  ⟨(valid_empty_resolves_neutral docWithTarget neutralControl (by decide) (by decide) (by decide)).1,
   (valid_empty_resolves_neutral docWithTarget neutralControl (by decide) (by decide)
      (by decide)).2 "msg" ⟨false, true, "looks good"⟩ (by decide) (by decide) (by decide)⟩

/-- Claim C8 (counterexample): a dependent confirm control displayed as
valid by a previous resolution, whose confirm-origin selector resolves
to no element, is re-resolved to Invalid (aria-invalid flips from
"false" to "true"): the resolver does not leave the previous state
unchanged, contrary to the claim. -/
theorem missing_origin_cex :
    depPrevValid.ariaInvalid = some "false" ∧
    doc0.querySel "#pw" = none ∧
    (validateInput doc0 depPrevValid).1.ariaInvalid = some "true" := by decide

/-- Claim C8 (amended): when the confirm-origin reference of a control
is present, non-empty and resolves to no element, isValidConfirm logs
and returns false, and resolution marks the control Invalid
(aria-invalid set to "true") rather than leaving the previous state
unchanged. -/
theorem missing_origin_resolves_invalid (doc : Doc) (i : Input) (sel : String)
    (h1 : i.getAttribute "data-confirm" = some sel) (h2 : sel ≠ "")
    (h3 : doc.querySel sel = none) :
    isValidConfirm doc i = false ∧
    (validateInput doc i).1.ariaInvalid = some "true" := by
  have hc : isValidConfirm doc i = false := by
    unfold isValidConfirm
    rw [h1]
    simp [show (sel == "") = false by simpa using h2, h3]
  refine ⟨hc, ?_⟩
  unfold validateInput
  rw [hc]
  simp [handleInvalidInput_fst]

/-- Claim C8 witness: the amended theorem applied to the concrete
previously-valid dependent in an empty document. -/
theorem missing_origin_resolves_invalid_witness :
    isValidConfirm doc0 depPrevValid = false ∧
    (validateInput doc0 depPrevValid).1.ariaInvalid = some "true" :=
  missing_origin_resolves_invalid doc0 depPrevValid "#pw" (by decide) (by decide) (by decide)

/-- Claim C9: when a control carries a non-empty message-target
reference that resolves to no element, each of the three handlers is
non-fatal: it still updates the control as its state dictates
(aria-invalid "true" on Invalid, "false" on Valid, removed on Neutral)
and returns the document unchanged, so no other control or target is
affected. -/
theorem missing_target_non_fatal (doc : Doc) (i : Input) (id : String)
    (h1 : i.getAttribute "aria-describedby" = some id) (h2 : id ≠ "")
    (h3 : doc.getById id = none) :
    handleInvalidInput doc i = ({ i with ariaInvalid := some "true" }, doc) ∧
    handleValidInput doc i = ({ i with ariaInvalid := some "false" }, doc) ∧
    clearValidation doc i = ({ i with ariaInvalid := none }, doc) := by
  refine ⟨?_, ?_, ?_⟩
  · unfold handleInvalidInput
    exact syncMessageTarget_missing doc _ _ id h1 h2 h3
  · unfold handleValidInput
    exact syncMessageTarget_missing doc _ _ id h1 h2 h3
  · unfold clearValidation
    exact syncMessageTarget_missing doc _ _ id h1 h2 h3

/-- Claim C9 witness: the theorem applied to a concrete control whose
aria-describedby names a target absent from the document. -/
theorem missing_target_non_fatal_witness :
    handleInvalidInput doc0 ghostControl = ({ ghostControl with ariaInvalid := some "true" }, doc0) ∧
    handleValidInput doc0 ghostControl = ({ ghostControl with ariaInvalid := some "false" }, doc0) ∧
    clearValidation doc0 ghostControl = ({ ghostControl with ariaInvalid := none }, doc0) :=
  missing_target_non_fatal doc0 ghostControl "ghost" (by decide) (by decide) (by decide)

/-- Claim C10: the confirm equality test is the exact, untrimmed,
case-sensitive comparison of the raw dependent value against the raw
origin value; consequently a dependent whose value differs from the
origin value (in particular one differing only by surrounding
whitespace or letter case) resolves Invalid, not Valid. -/
theorem confirm_equality_raw (doc : Doc) (i origin : Input) (sel : String)
    (h1 : i.getAttribute "data-confirm" = some sel) (h2 : sel ≠ "")
    (h3 : doc.querySel sel = some origin) :
    (isValidConfirm doc i = true ↔ i.value = origin.value) ∧
    (i.value ≠ origin.value →
      (jsTrim i.value = jsTrim origin.value ∨ jsToLower i.value = jsToLower origin.value) →
      (validateInput doc i).1.ariaInvalid = some "true") := by
  have hc : isValidConfirm doc i = (i.value == origin.value) := by
    unfold isValidConfirm
    rw [h1]
    simp [show (sel == "") = false by simpa using h2, h3]
  constructor
  · rw [hc]; exact beq_iff_eq
  · intro hne _
    have hfalse : isValidConfirm doc i = false := by rw [hc]; simpa using hne
    unfold validateInput
    rw [hfalse]
    simp [handleInvalidInput_fst]

/-- Claim C10 witness: a dependent holding the origin value surrounded
by whitespace resolves Invalid. -/
theorem confirm_equality_raw_witness :
    (isValidConfirm docSecret (depControl " secret ") = true ↔
      (depControl " secret ").value = originSecret.value) ∧
    (validateInput docSecret (depControl " secret ")).1.ariaInvalid = some "true" :=
  ⟨(confirm_equality_raw docSecret (depControl " secret ") originSecret "#pw"
      (by decide) (by decide) (by decide)).1,
   (confirm_equality_raw docSecret (depControl " secret ") originSecret "#pw"
      (by decide) (by decide) (by decide)).2 (by decide) (Or.inl (by decide))⟩

end Formageddon
